import Mathlib

/-!
Verification of the cellular-automata engines in `automata.py`: Wolfram's
Rule 30 (`rule_thirty`), Conway's Game of Life with a dead border (`life`)
and with a toroidal border (`life_periodic`), and the unimplemented
hexagonal (`lifehex`) and generic (`life_generic`) variants.  Each Python
function is embedded as an executable Lean function.  Behaviour the source
depends on is modelled explicitly: numpy boolean scalars and Python's `is`
identity test, the dictionary rule table, IndexError on out-of-range
indexing (as `Option.none`), and the exact placement of the `return`
statements and of the border-refresh assignments.
-/

/-- A Python object as far as the engines' boolean tests are concerned:
the interpreter-wide singletons `True` and `False`, or a numpy boolean
scalar `np.bool_(b)` (which is what indexing a boolean numpy array
returns). -/
inductive PyObj where
  | TrueSingleton : PyObj
  | FalseSingleton : PyObj
  | npBool : Bool → PyObj

/-- Python's `is` operator: object identity.  The singletons `True` and
`False` are identical only to themselves; numpy caches its two boolean
scalars, so two `np.bool_` of the same value are identical to each other,
but a numpy scalar is never the Python singleton `True` or `False`. -/
def pyIs : PyObj → PyObj → Bool
  | PyObj.TrueSingleton, PyObj.TrueSingleton => true
  | PyObj.FalseSingleton, PyObj.FalseSingleton => true
  | PyObj.npBool a, PyObj.npBool b => a == b
  | _, _ => false

/-- The `thirty_rule` dictionary of `rule_thirty` (automata.py lines
40-45): all eight entries, one per 3-tuple of booleans.  `np.bool_`
hashes and compares equal to the Python bools used as keys, so the
`dict.get` lookups in the source behave as this total function. -/
def thirty_rule : Bool → Bool → Bool → Bool
  | true, true, true => false
  | true, true, false => false
  | true, false, true => false
  | true, false, false => true
  | false, true, true => true
  | false, true, false => true
  | false, false, true => true
  | false, false, false => false

/-- One iteration of the while-loop body of `rule_thirty` (lines 51-72):
the fresh row (initialized all `False` by `np.full`) gets interior cells
`1..L-2` from the rule table, then cells `0` and `L-1` from the boundary
branch; every read is from the previous row.  For `L ≤ 1` the boundary
lookups read position `1` of a length-`L` array, which raises IndexError
in numpy (modelled as `none`); for `L ≥ 2` every index used (`L-1`,
`L-2`, `0`, `1`, `i-1`, `i`, `i+1`) is in range. -/
def ruleThirtyStep (prev : List Bool) (periodic : Bool) : Option (List Bool) :=
  if prev.length < 2 then none
  else
    some ((List.range prev.length).map (fun i =>
      if i = 0 then
        if periodic then
          thirty_rule (prev.getD (prev.length - 1) false) (prev.getD 0 false)
            (prev.getD 1 false)
        else
          thirty_rule false (prev.getD 0 false) (prev.getD 1 false)
      else if i = prev.length - 1 then
        if periodic then
          thirty_rule (prev.getD (prev.length - 2) false)
            (prev.getD (prev.length - 1) false) (prev.getD 0 false)
        else
          thirty_rule (prev.getD (prev.length - 2) false)
            (prev.getD (prev.length - 1) false) false
      else
        thirty_rule (prev.getD (i - 1) false) (prev.getD i false)
          (prev.getD (i + 1) false)))

/-- Iterate a fallible step `n` times, stopping at the first failure. -/
def iterOpt (f : List Bool → Option (List Bool)) : Nat → List Bool → Option (List Bool)
  | 0, s => some s
  | n + 1, s => (f s).bind (iterOpt f n)

/-- `rule_thirty(initial_state, nsteps, periodic)` (lines 9-74): the
while loop `while current_step <= nsteps - 2` performs `nsteps - 1`
transitions and the function returns row `nsteps - 1` of the history
array, i.e. the last state produced.  For `nsteps = 0` the very first
write `current_state[0, :] = initial_state` indexes row `0` of a 0-row
array and raises IndexError (modelled as `none`). -/
def rule_thirty (initial : List Bool) (nsteps : Nat) (periodic : Bool) :
    Option (List Bool) :=
  if nsteps = 0 then none
  else iterOpt (fun s => ruleThirtyStep s periodic) (nsteps - 1) initial

/-- The padded generation-0 buffer of `life`/`life_periodic` before any
border adjustment: `np.full((…, rows+2, cols+2), False)` with the initial
grid written to the interior `[1:rows+1, 1:cols+1]` (lines 98-99 and
155-156).  Index `(i, j)` of the buffer; everything outside the interior
is the initialized `False`. -/
def gridFun (initial : List (List Bool)) : Nat → Nat → Bool :=
  fun i j =>
    if 1 ≤ i ∧ i ≤ initial.length ∧ 1 ≤ j ∧ j ≤ (initial.headD []).length then
      (initial.getD (i - 1) []).getD (j - 1) false
    else false

/-- The `neighbors_list` count of `life`/`life_periodic` (lines 104-114 /
165-175): the eight buffer cells around `(i, j)`, counted with
`list.count(True)`, which uses `==` (and `np.bool_(b) == True` holds
exactly when `b` is true). -/
def lifeNeighbors (b : Nat → Nat → Bool) (i j : Nat) : Nat :=
  ([b (i - 1) (j - 1), b (i - 1) j, b (i - 1) (j + 1), b i (j - 1),
    b i (j + 1), b (i + 1) (j - 1), b (i + 1) j, b (i + 1) (j + 1)]).count true

/-- The cell-update branch of `life` (lines 115-124) and `life_periodic`
(lines 176-185): `if cell is True: …` / `elif cell is False: …` where
`cell` is the numpy boolean scalar read from the buffer.  `some v` means
the branch writes `v` into the next generation's cell; `none` means
neither branch runs and the cell is not written. -/
def lifeCellUpdate (prevCell : Bool) (num_alive : Nat) : Option Bool :=
  if pyIs (PyObj.npBool prevCell) PyObj.TrueSingleton then
    some (num_alive == 2 || num_alive == 3)
  else if pyIs (PyObj.npBool prevCell) PyObj.FalseSingleton then
    some (num_alive == 3)
  else none

/-- One transition of `life` (lines 102-124): for each interior cell the
update branch either writes a value or leaves the next generation's cell
at its initialized `False`; border cells of the next generation are never
written and stay `False`. -/
def lifeStep (rows cols : Nat) (prev : Nat → Nat → Bool) : Nat → Nat → Bool :=
  fun i j =>
    if 1 ≤ i ∧ i ≤ rows ∧ 1 ≤ j ∧ j ≤ cols then
      (lifeCellUpdate (prev i j) (lifeNeighbors prev i j)).getD false
    else false

/-- Extract the interior `rows × cols` region `[1:rows+1, 1:cols+1]` of a
padded buffer, as the list-of-rows numpy would return. -/
def interiorOf (rows cols : Nat) (b : Nat → Nat → Bool) : List (List Bool) :=
  (List.range rows).map (fun i => (List.range cols).map (fun j => b (i + 1) (j + 1)))

/-- `life(initial_state, nsteps)` (lines 77-126).  The `return` statement
(line 126) is inside the while loop, so: for `nsteps ≤ 1` the loop body
never runs and the function falls off the end returning `None` (for
`nsteps = 0` numpy would already raise on the generation-0 write); for
`nsteps ≥ 2` the loop body runs exactly once, computing only generation 1,
and returns generation `nsteps - 1` of the history buffer — which for
`nsteps ≥ 3` was never written and is still all `False`. -/
def life (initial : List (List Bool)) (nsteps : Nat) : Option (List (List Bool)) :=
  if nsteps ≤ 1 then none
  else
    some (interiorOf initial.length (initial.headD []).length
      (if nsteps - 1 = 1 then
        lifeStep initial.length (initial.headD []).length (gridFun initial)
      else fun _ _ => false))

/-- Single-cell write into a buffer. -/
def updateCell (g : Nat → Nat → Bool) (i j : Nat) (v : Bool) : Nat → Nat → Bool :=
  fun a b => if a = i ∧ b = j then v else g a b

/-- One iteration of the `for i` loop of `life_periodic` (lines 163-185).
`num_alive = neighbors_list.count(True)` and the whole `if`/`elif` are
indented at the level of the `for j` loop, not inside it: they run once
per row, after the `for j` loop has finished, with `j` left at its final
value `cols` and `neighbors_list` the one built for `(i, cols)`.  So at
most the single cell `(i, cols)` of the next generation is written. -/
def lifePeriodicRowUpdate (prev next : Nat → Nat → Bool) (cols i : Nat) :
    Nat → Nat → Bool :=
  match lifeCellUpdate (prev i cols) (lifeNeighbors prev i cols) with
  | some v => updateCell next i cols v
  | none => next

/-- The border refresh at the end of each transition of `life_periodic`
(lines 186-189): row `0` := row `rows`, then row `rows+1` := row `1`,
then column `0` := column `cols`, then column `cols+1` := column `1`,
each assignment reading the buffer as left by the previous one. -/
def borderRefresh (rows cols : Nat) (g : Nat → Nat → Bool) : Nat → Nat → Bool :=
  fun i j =>
    let g1 : Nat → Nat → Bool := fun a b => if a = 0 then g rows b else g a b
    let g2 : Nat → Nat → Bool := fun a b => if a = rows + 1 then g1 1 b else g1 a b
    let g3 : Nat → Nat → Bool := fun a b => if b = 0 then g2 a cols else g2 a b
    if j = cols + 1 then g3 i 1 else g3 i j

/-- One transition of `life_periodic` (lines 162-189): the next
generation starts as the initialized all-`False` slab, each row runs the
once-per-row update, and then the border is refreshed from the next
generation itself. -/
def lifePeriodicStep (rows cols : Nat) (prev : Nat → Nat → Bool) :
    Nat → Nat → Bool :=
  borderRefresh rows cols
    ((List.range rows).foldl
      (fun next r => lifePeriodicRowUpdate prev next cols (r + 1))
      (fun _ _ => false))

/-- The generation-0 buffer of `life_periodic` after the initial border
writes (lines 156-160).  Line 157 copies the single border cell `(0, 1)`
from `(rows, 1)` — not the whole top border row; lines 158-160 then copy
the whole bottom border row from row `1`, column `0` from column `cols`,
and column `cols+1` from column `1`, in that order. -/
def lifePeriodicInit (initial : List (List Bool)) : Nat → Nat → Bool :=
  fun i j =>
    let rows := initial.length
    let cols := (initial.headD []).length
    let b0 := gridFun initial
    let b1 : Nat → Nat → Bool := fun a b =>
      if a = 0 ∧ b = 1 then b0 rows 1 else b0 a b
    let b2 : Nat → Nat → Bool := fun a b => if a = rows + 1 then b1 1 b else b1 a b
    let b3 : Nat → Nat → Bool := fun a b => if b = 0 then b2 a cols else b2 a b
    if j = cols + 1 then b3 i 1 else b3 i j

/-- `life_periodic(initial_state, nsteps)` (lines 131-191): the while
loop performs `nsteps - 1` transitions (its `return` is after the loop)
and the function returns the interior of generation `nsteps - 1`.  For
`nsteps = 0` the generation-0 write raises IndexError (modelled as
`none`). -/
def life_periodic (initial : List (List Bool)) (nsteps : Nat) :
    Option (List (List Bool)) :=
  if nsteps = 0 then none
  else
    some (interiorOf initial.length (initial.headD []).length
      ((lifePeriodicStep initial.length (initial.headD []).length)^[nsteps - 1]
        (lifePeriodicInit initial)))

/-- The result of a Python engine call: an ordinary lattice value, or the
`NotImplemented` singleton constant. -/
inductive PyResult (α : Type) where
  | Value : α → PyResult α
  | NotImplemented : PyResult α

/-- `lifehex(initial_state, nsteps)` (lines 194-215): the body is just
`return NotImplemented`. -/
def lifehex (initial : List (List Bool)) (nsteps : Nat) :
    PyResult (List (List Bool)) :=
  PyResult.NotImplemented

/-- `life_generic(matrix, initial_state, nsteps, environment, fertility)`
(lines 218-241): the body is just `return NotImplemented`. -/
def life_generic (matrix : List (List Nat)) (initial : List Bool) (nsteps : Nat)
    (environment fertility : List Nat) : PyResult (List Bool) :=
  PyResult.NotImplemented

/-- Modelled from the spec (§4.2 LifeEngine): one per-cell transition of
the fixed/dead-boundary Game of Life — every interior cell is recomputed
from its own 8-neighbor count in the previous generation; alive survives
on a count of 2 or 3, dead is born on a count of 3. -/
def spec_lifeStep (rows cols : Nat) (prev : Nat → Nat → Bool) : Nat → Nat → Bool :=
  fun i j =>
    if 1 ≤ i ∧ i ≤ rows ∧ 1 ≤ j ∧ j ≤ cols then
      if prev i j then
        lifeNeighbors prev i j == 2 || lifeNeighbors prev i j == 3
      else lifeNeighbors prev i j == 3
    else false

/-- Modelled from the spec (§4.2): `nsteps - 1` per-cell transitions of
the dead-boundary Game of Life, returning the interior after `nsteps`
total generations (`nsteps = 1` is the identity). -/
def spec_life (initial : List (List Bool)) (nsteps : Nat) :
    Option (List (List Bool)) :=
  if nsteps = 0 then none
  else
    some (interiorOf initial.length (initial.headD []).length
      ((spec_lifeStep initial.length (initial.headD []).length)^[nsteps - 1]
        (gridFun initial)))

/-- Modelled from the spec (§4.3 LifePeriodicEngine): one per-cell
transition of the toroidal Game of Life on the bare `rows × cols` grid —
neighbor indices wrap modulo the grid dimensions. -/
def spec_lifePeriodicStep (rows cols : Nat) (g : Nat → Nat → Bool) :
    Nat → Nat → Bool :=
  fun i j =>
    let up := (i + rows - 1) % rows
    let down := (i + 1) % rows
    let left := (j + cols - 1) % cols
    let right := (j + 1) % cols
    let n := ([g up left, g up j, g up right, g i left, g i right,
               g down left, g down j, g down right]).count true
    if g i j then n == 2 || n == 3 else n == 3

/-- Modelled from the spec (§4.3): `nsteps - 1` per-cell toroidal
transitions, all cells recomputed each generation from the previous one. -/
def spec_life_periodic (initial : List (List Bool)) (nsteps : Nat) :
    Option (List (List Bool)) :=
  if nsteps = 0 then none
  else
    some ((List.range initial.length).map (fun i =>
      (List.range (initial.headD []).length).map (fun j =>
        (spec_lifePeriodicStep initial.length (initial.headD []).length)^[nsteps - 1]
          (fun a b => (initial.getD a []).getD b false) i j)))

/-- A 2×2 still-life block of alive cells centered in an otherwise dead
4×4 grid. -/
def block4 : List (List Bool) :=
  [[false, false, false, false], [false, true, true, false],
   [false, true, true, false], [false, false, false, false]]

/-- A 2×2 block of alive cells in the top-left corner of a 3×3 grid
(a still life on the 3×3 torus). -/
def block3 : List (List Bool) :=
  [[true, true, false], [true, true, false], [false, false, false]]

/-! ### Helper lemmas -/

lemma range_map_getD (f : Nat → Bool) (L i : Nat) (h : i < L) :
    ((List.range L).map f).getD i false = f i := by
  rw [List.getD_eq_getElem?_getD, List.getElem?_map, List.getElem?_range h]
  rfl

lemma lifeCellUpdate_eq_none (b : Bool) (n : Nat) : lifeCellUpdate b n = none := by
  simp [lifeCellUpdate, pyIs]

lemma lifeStep_eq_false (rows cols : Nat) (prev : Nat → Nat → Bool) (i j : Nat) :
    lifeStep rows cols prev i j = false := by
  unfold lifeStep
  split
  · rw [lifeCellUpdate_eq_none]; rfl
  · rfl

lemma lifePeriodicRowUpdate_eq_next (prev next : Nat → Nat → Bool) (cols i : Nat) :
    lifePeriodicRowUpdate prev next cols i = next := by
  unfold lifePeriodicRowUpdate
  rw [lifeCellUpdate_eq_none]

lemma foldl_lifePeriodicRowUpdate (prev : Nat → Nat → Bool) (cols : Nat)
    (l : List Nat) (g : Nat → Nat → Bool) :
    l.foldl (fun next r => lifePeriodicRowUpdate prev next cols (r + 1)) g = g := by
  induction l generalizing g with
  | nil => rfl
  | cons x xs ih => rw [List.foldl_cons, lifePeriodicRowUpdate_eq_next]; exact ih g

lemma borderRefresh_false (rows cols i j : Nat) :
    borderRefresh rows cols (fun _ _ => false) i j = false := by
  simp [borderRefresh]

lemma lifePeriodicStep_false (rows cols : Nat) (prev : Nat → Nat → Bool) (i j : Nat) :
    lifePeriodicStep rows cols prev i j = false := by
  unfold lifePeriodicStep
  rw [foldl_lifePeriodicRowUpdate]
  exact borderRefresh_false rows cols i j

lemma interiorOf_eq_replicate (rows cols : Nat) (b : Nat → Nat → Bool)
    (hb : ∀ i j, b i j = false) :
    interiorOf rows cols b = List.replicate rows (List.replicate cols false) := by
  unfold interiorOf
  refine List.eq_replicate_iff.mpr ⟨by simp, ?_⟩
  intro row hrow
  obtain ⟨i, hi, rfl⟩ := List.mem_map.mp hrow
  refine List.eq_replicate_iff.mpr ⟨by simp, ?_⟩
  intro x hx
  obtain ⟨j, hj, rfl⟩ := List.mem_map.mp hx
  exact hb _ _

/-! ### Claim theorems -/

/-- C1: the claim says every engine returns the initial lattice unchanged
for `nsteps = 1`.  `rule_thirty` and `life_periodic` do; `life` does not —
its `return` is inside the while loop, which runs zero times for
`nsteps = 1`, so the call returns `None` instead of a lattice. -/
theorem c1_identity_on_one_step_fails_for_life :
    (∀ initial : List (List Bool), life initial 1 = none) ∧
    (∀ (initial : List Bool) (periodic : Bool),
      rule_thirty initial 1 periodic = some initial) ∧
    life_periodic [[true]] 1 = some [[true]] :=
  ⟨fun _ => rfl, fun _ _ => rfl, by decide⟩

/-- C2: the claim says `life` applies `nsteps - 1` transitions and
returns the state after `nsteps` total generations.  In the code the
`return` inside the while loop exits after the first iteration, so only
generation 1 is ever computed and, for `nsteps = 3`, the returned
generation 2 of the history buffer was never written: a 2×2 still-life
block comes back all dead, while the per-cell spec semantics
(`spec_life`) keeps it alive. -/
theorem c2_life_returns_after_first_transition :
    life [[true, true], [true, true]] 3 = some [[false, false], [false, false]] ∧
    spec_life [[true, true], [true, true]] 3 =
      some [[true, true], [true, true]] := by decide

/-- C3: the claim says `life_periodic` computes a neighbor count once per
cell and applies the survive/birth rule to every cell.  In the code
`num_alive` and the `if`/`elif` sit outside the `for j` loop: they run
once per row with `j = cols`, and (because the branch tests use `is` on
numpy scalars) write nothing at all, so each row-update leaves the next
generation untouched; a 2×2 block that is a still life on the 3×3 torus
(kept by `spec_life_periodic`) comes back all dead. -/
theorem c3_per_row_neighbor_count :
    spec_life_periodic block3 2 = some block3 ∧
    life_periodic block3 2 =
      some [[false, false, false], [false, false, false], [false, false, false]] ∧
    (∀ (prev next : Nat → Nat → Bool) (cols i : Nat),
      lifePeriodicRowUpdate prev next cols i = next) :=
  ⟨by decide, by decide,
    fun prev next cols i => lifePeriodicRowUpdate_eq_next prev next cols i⟩

/-- C4: the claim says the whole one-cell border (corners included)
equals the opposite interior edge before every transition, including the
first.  For `initial = [[False, False], [False, True]]` the generation-0
refresh (line 157 copies only the single cell `(0, 1)`) leaves the top
border cell `(0, 2)` and the corner `(0, 0)` equal to `False` even though
the bottom interior cell `(2, 2)` — their required source — is `True`. -/
theorem c4_first_border_refresh_incomplete :
    lifePeriodicInit [[false, false], [false, true]] 2 2 = true ∧
    lifePeriodicInit [[false, false], [false, true]] 0 2 = false ∧
    lifePeriodicInit [[false, false], [false, true]] 0 0 = false := by decide

/-- C5: the rule table is total on the 8 boolean 3-tuples and equals
Wolfram's Rule 30 (`left xor (center or right)`); `rule_thirty` performs
`nsteps - 1` transitions of `ruleThirtyStep`; and every non-periodic
transition sets interior cell `i` (`1 ≤ i ≤ L-2`) to
`table(prev[i-1], prev[i], prev[i+1])` and computes cells `0` and `L-1`
with positions `-1` and `L` treated as `false`. -/
theorem c5_rule_table_total_and_transition_law :
    (∀ a b c : Bool, thirty_rule a b c = xor a (b || c)) ∧
    (∀ (initial : List Bool) (nsteps : Nat) (periodic : Bool),
      rule_thirty initial nsteps periodic =
        if nsteps = 0 then none
        else iterOpt (fun s => ruleThirtyStep s periodic) (nsteps - 1) initial) ∧
    (∀ prev next : List Bool, ruleThirtyStep prev false = some next →
      next.length = prev.length ∧
      (∀ i, 1 ≤ i → i ≤ prev.length - 2 →
        next.getD i false =
          thirty_rule (prev.getD (i - 1) false) (prev.getD i false)
            (prev.getD (i + 1) false)) ∧
      next.getD 0 false =
        thirty_rule false (prev.getD 0 false) (prev.getD 1 false) ∧
      next.getD (prev.length - 1) false =
        thirty_rule (prev.getD (prev.length - 2) false)
          (prev.getD (prev.length - 1) false) false) := by
  refine ⟨by decide, fun _ _ _ => rfl, ?_⟩
  intro prev next h
  unfold ruleThirtyStep at h
  by_cases hL : prev.length < 2
  · rw [if_pos hL] at h
    exact absurd h (by simp)
  · rw [if_neg hL] at h
    have hL2 : 2 ≤ prev.length := Nat.not_lt.mp hL
    injection h with h
    subst h
    refine ⟨by simp, ?_, ?_, ?_⟩
    · intro i h1 h2
      have hiL : i < prev.length := by omega
      rw [range_map_getD _ _ _ hiL]
      have hi0 : ¬ (i = 0) := by omega
      have hi1 : ¬ (i = prev.length - 1) := by omega
      simp only [hi0, hi1, if_false]
    · rw [range_map_getD _ _ _ (by omega : 0 < prev.length)]
      simp
    · rw [range_map_getD _ _ _ (by omega : prev.length - 1 < prev.length)]
      have h0 : ¬ (prev.length - 1 = 0) := by omega
      simp only [h0, if_false, if_pos rfl]
      simp

/-- Witness for C5: the step law at `prev = [false, true, false]`,
`next = [true, true, true]`, interior cell `i = 1`. -/
theorem c5_rule_table_total_and_transition_law_witness :
    ([true, true, true] : List Bool).getD 1 false =
      thirty_rule (([false, true, false] : List Bool).getD 0 false)
        (([false, true, false] : List Bool).getD 1 false)
        (([false, true, false] : List Bool).getD 2 false) :=
  (c5_rule_table_total_and_transition_law.2.2 [false, true, false]
    [true, true, true] (by decide)).2.1 1 (by decide) (by decide)

/-- C6: the docstring doctest (and the claim) expect
`rule_thirty([False, True, False], 1)` to be `[True, True, True]` — one
application of the rule.  The code performs `nsteps - 1 = 0` transitions
and returns the initial state; a single application of its own step
function would indeed give `[True, True, True]`. -/
theorem c6_doctest_contradicted :
    rule_thirty [false, true, false] 1 false = some [false, true, false] ∧
    ruleThirtyStep [false, true, false] false = some [true, true, true] := by decide

/-- C7: the claim says a 2×2 still-life block inside a dead grid is
unchanged by `life` and `life_periodic` for every `nsteps ≥ 1`.  Both
engines return the all-dead grid at `nsteps = 2` (the `is True`/`is
False` tests never hold for numpy scalars, so no cell is ever written
alive), while the per-cell spec semantics keeps the block. -/
theorem c7_still_life_not_preserved :
    life block4 2 = some (List.replicate 4 (List.replicate 4 false)) ∧
    life_periodic block4 2 = some (List.replicate 4 (List.replicate 4 false)) ∧
    spec_life block4 2 = some block4 ∧
    spec_life_periodic block4 2 = some block4 := by decide

/-- Counterexample for C8: for `initial = [False, True]` (length 2 < 3)
with `periodic = True` and `nsteps = 2`, `rule_thirty` does not reject
the input — it computes and returns a lattice. -/
theorem c8_counterexample_length_two_accepted :
    rule_thirty [false, true] 2 true = some [false, true] := by decide

/-- C8 (amended): `rule_thirty` performs no length validation.  For
`L = 2` with `periodic = True` it computes and returns a lattice via the
wrapped positions; for `L ≤ 1` a transition raises an IndexError reading
position 1 (so `nsteps ≥ 2` fails, but not with a length error), and for
`nsteps = 1` even `L ≤ 1` returns the initial state. -/
theorem c8_no_length_validation :
    rule_thirty [false, true] 2 true = some [false, true] ∧
    rule_thirty [true] 2 true = none ∧
    rule_thirty [true] 1 true = some [true] := by decide

/-- C9: `lifehex` and `life_generic` always return the distinct
`NotImplemented` sentinel and never an ordinary lattice value. -/
theorem c9_unimplemented_signal :
    (∀ (initial : List (List Bool)) (nsteps : Nat),
      lifehex initial nsteps = PyResult.NotImplemented) ∧
    (∀ (matrix : List (List Nat)) (initial : List Bool) (nsteps : Nat)
      (environment fertility : List Nat),
      life_generic matrix initial nsteps environment fertility =
        PyResult.NotImplemented) ∧
    (∀ (initial : List (List Bool)) (nsteps : Nat) (g : List (List Bool)),
      lifehex initial nsteps ≠ PyResult.Value g) ∧
    (∀ (matrix : List (List Nat)) (initial : List Bool) (nsteps : Nat)
      (environment fertility : List Nat) (v : List Bool),
      life_generic matrix initial nsteps environment fertility ≠
        PyResult.Value v) :=
  ⟨fun _ _ => rfl, fun _ _ _ _ _ => rfl,
    fun _ _ _ h => PyResult.noConfusion h,
    fun _ _ _ _ _ _ h => PyResult.noConfusion h⟩

/-- C10: for every boolean input grid and every `nsteps ≥ 2`, both `life`
and `life_periodic` return the all-dead grid of the input's shape,
whatever the input pattern: the `is True`/`is False` branch tests compare
numpy boolean scalars with the Python singletons by identity and never
hold, so no later generation ever receives a `True` write. -/
theorem c10_all_cells_dead (initial : List (List Bool)) (nsteps : Nat)
    (h : 2 ≤ nsteps) :
    life initial nsteps =
      some (List.replicate initial.length
        (List.replicate (initial.headD []).length false)) ∧
    life_periodic initial nsteps =
      some (List.replicate initial.length
        (List.replicate (initial.headD []).length false)) := by
  constructor
  · unfold life
    rw [if_neg (by omega)]
    congr 1
    split
    · exact interiorOf_eq_replicate _ _ _ (fun i j => lifeStep_eq_false _ _ _ i j)
    · exact interiorOf_eq_replicate _ _ _ (fun i j => rfl)
  · unfold life_periodic
    rw [if_neg (by omega)]
    congr 1
    obtain ⟨m, hm⟩ : ∃ m, nsteps - 1 = m + 1 := ⟨nsteps - 2, by omega⟩
    rw [hm, Function.iterate_succ_apply']
    exact interiorOf_eq_replicate _ _ _
      (fun i j => lifePeriodicStep_false _ _ _ i j)

/-- Witness for C10: both engines on `[[true]]` with `nsteps = 2`. -/
theorem c10_all_cells_dead_witness :
    life [[true]] 2 = some (List.replicate 1 (List.replicate 1 false)) ∧
    life_periodic [[true]] 2 =
      some (List.replicate 1 (List.replicate 1 false)) :=
  c10_all_cells_dead [[true]] 2 (by decide)
